import Mathlib

/-!
# ReplaySession.h: replay session state, constructors and one-time setters

A shallow embedding of `src/ReplaySession.h`.  Plain enums become inductive
types, the POD structs become structures, `assert` becomes a failing branch of
`Except`, `Task*` is an address (`0` is `nullptr`) and `pid_t` is an integer.

Only the bodies present in the header are translated from the source.  Types
and member functions that the header merely names (`TraceReader`, `TraceFrame`,
`EmuFs`, `advance_to_next_trace_frame`, `clone`) are modelled from the
specification and are marked as such.
-/

namespace RR

/-! ## Sub-step state machines -/

/-- Source enum `ReplayDeschedType`. -/
inductive ReplayDeschedType where
  | DESCHED_ARM
  | DESCHED_DISARM
  deriving DecidableEq, Repr

/-- Source enum `ReplayDeschedEnterExit`. -/
inductive ReplayDeschedEnterExit where
  | DESCHED_ENTER
  | DESCHED_EXIT
  deriving DecidableEq, Repr

/-- Source struct `ReplayDeschedState`. -/
structure ReplayDeschedState where
  type : ReplayDeschedType
  state : ReplayDeschedEnterExit
  deriving DecidableEq, Repr

/-- Source enum `ReplayFlushBufferedSyscallStep`. -/
inductive ReplayFlushBufferedSyscallStep where
  | FLUSH_START
  | FLUSH_ARM
  | FLUSH_ENTER
  | FLUSH_EXIT
  | FLUSH_DISARM
  | FLUSH_DONE
  deriving DecidableEq, Repr

/-- Source struct `ReplayFlushBufferedSyscallState`; `size_t` fields are naturals. -/
structure ReplayFlushBufferedSyscallState where
  need_buffer_restore : Bool
  num_rec_bytes_remaining : Nat
  syscall_record_offset : Nat
  state : ReplayFlushBufferedSyscallStep
  desched : ReplayDeschedState
  deriving DecidableEq, Repr

/-! ## Trace-step descriptor -/

/-- Source enum `ReplayTraceStepType`: nine enumerators, `TSTEP_NONE` first. -/
inductive ReplayTraceStepType where
  | TSTEP_NONE
  | TSTEP_RETIRE
  | TSTEP_ENTER_SYSCALL
  | TSTEP_EXIT_SYSCALL
  | TSTEP_DETERMINISTIC_SIGNAL
  | TSTEP_PROGRAM_ASYNC_SIGNAL_INTERRUPT
  | TSTEP_DELIVER_SIGNAL
  | TSTEP_FLUSH_SYSCALLBUF
  | TSTEP_DESCHED
  deriving DecidableEq, Repr

/-- Numeric value of an enumerator of `ReplayTraceStepType` (declaration order,
starting at zero, as C++ assigns them). -/
def ReplayTraceStepType.toNat : ReplayTraceStepType → Nat
  | .TSTEP_NONE => 0
  | .TSTEP_RETIRE => 1
  | .TSTEP_ENTER_SYSCALL => 2
  | .TSTEP_EXIT_SYSCALL => 3
  | .TSTEP_DETERMINISTIC_SIGNAL => 4
  | .TSTEP_PROGRAM_ASYNC_SIGNAL_INTERRUPT => 5
  | .TSTEP_DELIVER_SIGNAL => 6
  | .TSTEP_FLUSH_SYSCALLBUF => 7
  | .TSTEP_DESCHED => 8

/-- Source enum `ExecOrEmulate` (`EXEC = 0`, `EMULATE = 1`). -/
inductive ExecOrEmulate where
  | EXEC
  | EMULATE
  deriving DecidableEq, Repr

/-- Source enum `ExecOrEmulateReturn` (`EXEC_RETURN = 0`, `EMULATE_RETURN = 1`). -/
inductive ExecOrEmulateReturn where
  | EXEC_RETURN
  | EMULATE_RETURN
  deriving DecidableEq, Repr

/-- The anonymous struct behind the union member `syscall`. -/
structure SyscallStep where
  number : Int
  emu : ExecOrEmulate
  num_emu_args : Int
  emu_ret : ExecOrEmulateReturn
  deriving DecidableEq, Repr

/-- The anonymous struct behind the union member `target`; `Ticks` is declared
outside this header and is taken to be an integer. -/
structure TargetStep where
  ticks : Int
  signo : Int
  deriving DecidableEq, Repr

/-- The anonymous union of `ReplayTraceStep`, represented by the member that
holds the data.  The C++ union carries no tag of its own: which member is
meaningful is decided by `action`, kept next to it in `ReplayTraceStep`. -/
inductive ReplayTraceStepUnion where
  | syscall (s : SyscallStep)
  | signo (n : Int)
  | target (t : TargetStep)
  | flush (f : ReplayFlushBufferedSyscallState)
  | desched (d : ReplayDeschedState)
  deriving DecidableEq, Repr

/-- Source struct `ReplayTraceStep`: the action tag and the union. -/
structure ReplayTraceStep where
  action : ReplayTraceStepType
  u : ReplayTraceStepUnion
  deriving DecidableEq, Repr

/-- The value-initialised step written `current_step()` in both constructors:
every byte is zero, so `action` is the enumerator of value zero and the first
union member holds zeros. -/
def ReplayTraceStep.value_init : ReplayTraceStep :=
  { action := .TSTEP_NONE
    u := .syscall { number := 0, emu := .EXEC, num_emu_args := 0, emu_ret := .EXEC_RETURN } }

/-- The flush sub-state of a step, when the union holds one. -/
def ReplayTraceStep.flush (st : ReplayTraceStep) : Option ReplayFlushBufferedSyscallState :=
  match st.u with
  | .flush f => some f
  | _ => none

/-- The desched sub-state of a step, when the union holds one. -/
def ReplayTraceStep.desched (st : ReplayTraceStep) : Option ReplayDeschedState :=
  match st.u with
  | .desched d => some d
  | _ => none

/-- The eight variants the specification lists for a TraceStep, as action tags. -/
def spec_variants : List ReplayTraceStepType :=
  [.TSTEP_RETIRE, .TSTEP_ENTER_SYSCALL, .TSTEP_EXIT_SYSCALL, .TSTEP_DETERMINISTIC_SIGNAL,
   .TSTEP_PROGRAM_ASYNC_SIGNAL_INTERRUPT, .TSTEP_DELIVER_SIGNAL, .TSTEP_FLUSH_SYSCALLBUF,
   .TSTEP_DESCHED]

/-- How many of the eight listed variants are the active one of a step. -/
def ReplayTraceStep.active_variant_count (st : ReplayTraceStep) : Nat :=
  (spec_variants.filter (fun v => decide (v = st.action))).length

/-! ## Collaborator types named but not declared by the header -/

/-- Modelled from the spec: `TraceFrame` is declared in a header that is not
part of the sources; the glossary describes it as "one recorded unit of
execution (an event plus the tick count and register state at which it
occurred)".  The header reads only `tid()` from it. -/
structure TraceFrame where
  tid : Int
  event : Nat
  ticks : Int
  deriving DecidableEq, Repr

/-- Modelled from the spec: the default-constructed frame `trace_frame()`. -/
def TraceFrame.empty : TraceFrame := { tid := 0, event := 0, ticks := 0 }

/-- Modelled from the spec: `TraceReader` is declared outside the sources; the
spec describes the trace cursor as exposing "read next frame" (which fails
with `EndOfTrace` when exhausted) and "current stream position".  The cursor
is the recorded frames of the trace together with the position of the next
frame to read. -/
structure TraceReader where
  frames : List TraceFrame
  pos : Nat
  deriving DecidableEq, Repr

/-- Modelled from the spec: `TraceReader(dir)`, a cursor opened on a trace
directory, positioned at the start of the trace.  The content of the
directory is given by `disk`. -/
def TraceReader.of_dir (disk : String → List TraceFrame) (dir : String) : TraceReader :=
  { frames := disk dir, pos := 0 }

/-- Modelled from the spec: the copy constructor of `TraceReader`, "an
independent copy positioned at the same frame". -/
def TraceReader.copy (other : TraceReader) : TraceReader :=
  { frames := other.frames, pos := other.pos }

/-- Modelled from the spec: "read next frame", which "fails with `EndOfTrace`
when exhausted". -/
def TraceReader.read_frame (r : TraceReader) : Option (TraceFrame × TraceReader) :=
  match r.frames.get? r.pos with
  | some f => some (f, { frames := r.frames, pos := r.pos + 1 })
  | none => none

/-- Modelled from the spec: `EmuFs` is declared outside the sources; the
emulated filesystem is a store of emulated files, here their identifiers. -/
structure EmuFs where
  files : List Nat
  deriving DecidableEq, Repr

/-- Modelled from the spec: `EmuFs::create()`, a fresh emulated filesystem. -/
def EmuFs.create : EmuFs := { files := [] }

/-! ## The session -/

/-- Ways a member function can fail to return. -/
inductive Fatal where
  | assertion_failed
  | end_of_trace
  | null_emufs
  deriving DecidableEq, Repr

/-- The data members of `ReplaySession` that the header's member functions
read or write.  `emu_fs` is a `shared_ptr` (`none` is the empty pointer),
`last_debugged_task` is a `Task*` (`0` is `nullptr`), `tgid_debugged` a `pid_t`.
The two remaining members, `cpuid_bug_detector` and the scratch array
`syscallbuf_flush_buffer_array`, are named by no initialiser and no function
body of the header, and so is the base class `Session`; they are left out. -/
structure ReplaySession where
  emu_fs : Option EmuFs
  is_diversion : Bool
  last_debugged_task : Nat
  tgid_debugged : Int
  trace_in : TraceReader
  trace_frame : TraceFrame
  current_step : ReplayTraceStep
  deriving DecidableEq, Repr

namespace ReplaySession

/-- Source `diversion()`. -/
def diversion (s : ReplaySession) : Bool := s.is_diversion

/-- Source `current_trace_frame()`. -/
def current_trace_frame (s : ReplaySession) : TraceFrame := s.trace_frame

/-- Source `trace_reader()`. -/
def trace_reader (s : ReplaySession) : TraceReader := s.trace_in

/-- Source `debugged_tgid()`. -/
def debugged_tgid (s : ReplaySession) : Int := s.tgid_debugged

/-- Source `last_task()`. -/
def last_task (s : ReplaySession) : Nat := s.last_debugged_task

/-- Source `set_debugged_tgid`: `assert(0 == tgid_debugged); tgid_debugged = tgid;`. -/
def set_debugged_tgid (s : ReplaySession) (tgid : Int) : Except Fatal ReplaySession :=
  if 0 = s.tgid_debugged then .ok { s with tgid_debugged := tgid }
  else .error .assertion_failed

/-- Source `set_last_task`: `assert(!last_debugged_task); last_debugged_task = t;`. -/
def set_last_task (s : ReplaySession) (t : Nat) : Except Fatal ReplaySession :=
  if s.last_debugged_task = 0 then .ok { s with last_debugged_task := t }
  else .error .assertion_failed

/-- Modelled from the spec: the body of `advance_to_next_trace_frame` is not
in the sources.  It "reads the next frame from the trace cursor and installs
it as current, resetting the step-in-progress". -/
def advance_to_next_trace_frame (s : ReplaySession) : Except Fatal ReplaySession :=
  match s.trace_in.read_frame with
  | some (f, r) =>
    .ok { s with trace_in := r, trace_frame := f, current_step := ReplayTraceStep.value_init }
  | none => .error .end_of_trace

/-- The member initialisers of `ReplaySession(const std::string& dir)`, before
the constructor body runs; `trace_in` is the cursor `trace_in(dir)`. -/
def member_init (trace_in : TraceReader) : ReplaySession :=
  { emu_fs := none
    is_diversion := false
    last_debugged_task := 0
    tgid_debugged := 0
    trace_in := trace_in
    trace_frame := TraceFrame.empty
    current_step := ReplayTraceStep.value_init }

/-- Source constructor `ReplaySession(const std::string& dir)`: the member
initialisers, then `advance_to_next_trace_frame(); emu_fs = EmuFs::create();`.
The frame advance, whose body is not in the sources, is the argument `adv`. -/
def ctor_dir_with (adv : ReplaySession → Except Fatal ReplaySession) (trace_in : TraceReader) :
    Except Fatal ReplaySession :=
  match adv (member_init trace_in) with
  | .ok s => .ok { s with emu_fs := some EmuFs.create }
  | .error e => .error e

/-- The constructor `ReplaySession(const std::string& dir)` run on the trace
that `disk` holds in `dir`, with the frame advance as modelled above. -/
def ctor_dir (disk : String → List TraceFrame) (dir : String) : Except Fatal ReplaySession :=
  ctor_dir_with advance_to_next_trace_frame (TraceReader.of_dir disk dir)

/-- Source constructor `ReplaySession(const ReplaySession& other)`: only
`trace_in` is taken from `other`, the body is empty. -/
def ctor_copy (other : ReplaySession) : ReplaySession :=
  { emu_fs := none
    is_diversion := false
    last_debugged_task := 0
    tgid_debugged := 0
    trace_in := TraceReader.copy other.trace_in
    trace_frame := TraceFrame.empty
    current_step := ReplayTraceStep.value_init }

/-- Modelled from the spec: the body of `clone()` is not in the sources.  It
"produces a new session whose owned `TraceStep`/`FlushState`/`DeschedState`
are bit-for-bit copies" and "whose trace cursor is an independent copy
positioned at the same frame"; the emulated-filesystem handle is "shared
between a session and its checkpoints", and the currently loaded frame belongs
to the "entire owned state" that is cloned.  The new session is built by the
copy constructor of the source. -/
def clone (s : ReplaySession) : ReplaySession :=
  let session := ctor_copy s
  { session with
    emu_fs := s.emu_fs
    trace_frame := s.trace_frame
    current_step := s.current_step }

/-- Modelled from the spec: `clone_diversion()` "additionally marks the result
with `is_diversion = true`". -/
def clone_diversion (s : ReplaySession) : ReplaySession :=
  { s.clone with is_diversion := true }

end ReplaySession

/-- One operation on a session.  From the source: `set_debugged_tgid`,
`set_last_task`, mutation through the references handed out by
`trace_reader()` and `emufs()`, and the accessors.  Modelled from the spec,
their bodies being absent from the sources: the frame advance, cloning (which
leaves the receiver as it is), `gc_emufs` ("collect garbage files from this
session's emufs"), the dispatcher `setup_replay_one_trace_frame` (which
"computes the initial `TraceStep`" of the current frame) and the executor
`try_one_trace_step` (whose progress is kept in the current step, "the sole
resumption token"); `replay_step` is, by section 4.3 of the spec, a
sequence of these: an executor call, on completion a frame advance, and at the
end of the trace a `set_last_task`. -/
inductive Op where
  | set_debugged_tgid (tgid : Int)
  | set_last_task (t : Nat)
  | trace_reader (f : TraceReader → TraceReader)
  | emufs (f : EmuFs → EmuFs)
  | gc_emufs (gc : EmuFs → EmuFs)
  | advance_to_next_trace_frame
  | setup_replay_one_trace_frame (st : ReplayTraceStep)
  | try_one_trace_step (st : ReplayTraceStep)
  | clone
  | clone_diversion
  | accessor

/-- Effect of one operation on the receiving session. -/
def Op.apply (op : Op) (s : ReplaySession) : Except Fatal ReplaySession :=
  match op with
  | .set_debugged_tgid tgid => s.set_debugged_tgid tgid
  | .set_last_task t => s.set_last_task t
  | .trace_reader f => .ok { s with trace_in := f s.trace_in }
  | .emufs f =>
    match s.emu_fs with
    | some e => .ok { s with emu_fs := some (f e) }
    | none => .error .null_emufs
  | .gc_emufs gc =>
    match s.emu_fs with
    | some e => .ok { s with emu_fs := some (gc e) }
    | none => .error .null_emufs
  | .advance_to_next_trace_frame => s.advance_to_next_trace_frame
  | .setup_replay_one_trace_frame st => .ok { s with current_step := st }
  | .try_one_trace_step st => .ok { s with current_step := st }
  | .clone => .ok s
  | .clone_diversion => .ok s
  | .accessor => .ok s

/-- Whether the operation is a call of `set_last_task`. -/
def Op.is_set_last_task : Op → Bool
  | .set_last_task _ => true
  | _ => false

/-- A sequence of operations, stopping at the first one that does not return. -/
def run : List Op → ReplaySession → Except Fatal ReplaySession
  | [], s => .ok s
  | op :: ops, s =>
    match op.apply s with
    | .ok s1 => run ops s1
    | .error e => .error e

/-- The scenario of two calls in a row: `set_debugged_tgid(a)` and then, when
the first call returned, `set_debugged_tgid(b)` on the same session. -/
def set_debugged_tgid_twice (s : ReplaySession) (a b : Int) : Except Fatal ReplaySession :=
  match s.set_debugged_tgid a with
  | .ok s1 => s1.set_debugged_tgid b
  | .error e => .error e

/-! ## Concrete sessions used as test inputs -/

/-- A two-frame trace. -/
def sample_frames : List TraceFrame :=
  [{ tid := 11, event := 1, ticks := 100 }, { tid := 12, event := 2, ticks := 250 }]

/-- A disk holding the sample trace in every directory. -/
def sample_disk : String → List TraceFrame := fun _ => sample_frames

/-- A session in the middle of a buffered-syscall flush, with a debugged
task-group id, marked as a diversion. -/
def sample_session : ReplaySession :=
  { emu_fs := some { files := [4, 9] }
    is_diversion := true
    last_debugged_task := 0
    tgid_debugged := 1234
    trace_in := { frames := sample_frames, pos := 1 }
    trace_frame := { tid := 11, event := 1, ticks := 100 }
    current_step :=
      { action := .TSTEP_FLUSH_SYSCALLBUF
        u := .flush
          { need_buffer_restore := true
            num_rec_bytes_remaining := 48
            syscall_record_offset := 16
            state := .FLUSH_EXIT
            desched := { type := .DESCHED_DISARM, state := .DESCHED_EXIT } } } }

/-! ## Helper lemmas -/

theorem apply_keeps_debugged_tgid (op : Op) (s s1 : ReplaySession)
    (h0 : s.tgid_debugged ≠ 0) (h : op.apply s = .ok s1) :
    s1.tgid_debugged = s.tgid_debugged := by
  cases op with
  | set_debugged_tgid tgid =>
    simp only [Op.apply, ReplaySession.set_debugged_tgid] at h
    rw [if_neg (fun e => h0 e.symm)] at h
    cases h
  | set_last_task t =>
    simp only [Op.apply, ReplaySession.set_last_task] at h
    split at h
    · cases h; rfl
    · cases h
  | trace_reader f =>
    simp only [Op.apply] at h
    cases h; rfl
  | emufs f =>
    simp only [Op.apply] at h
    split at h
    · cases h; rfl
    · cases h
  | gc_emufs gc =>
    simp only [Op.apply] at h
    split at h
    · cases h; rfl
    · cases h
  | advance_to_next_trace_frame =>
    simp only [Op.apply, ReplaySession.advance_to_next_trace_frame] at h
    split at h
    · cases h; rfl
    · cases h
  | setup_replay_one_trace_frame st => simp only [Op.apply] at h; cases h; rfl
  | try_one_trace_step st => simp only [Op.apply] at h; cases h; rfl
  | clone => simp only [Op.apply] at h; cases h; rfl
  | clone_diversion => simp only [Op.apply] at h; cases h; rfl
  | accessor => simp only [Op.apply] at h; cases h; rfl

theorem apply_keeps_last_task (op : Op) (s s1 : ReplaySession)
    (hop : op.is_set_last_task = false) (h : op.apply s = .ok s1) :
    s1.last_debugged_task = s.last_debugged_task := by
  cases op with
  | set_debugged_tgid tgid =>
    simp only [Op.apply, ReplaySession.set_debugged_tgid] at h
    split at h
    · cases h; rfl
    · cases h
  | set_last_task t => simp [Op.is_set_last_task] at hop
  | trace_reader f =>
    simp only [Op.apply] at h
    cases h; rfl
  | emufs f =>
    simp only [Op.apply] at h
    split at h
    · cases h; rfl
    · cases h
  | gc_emufs gc =>
    simp only [Op.apply] at h
    split at h
    · cases h; rfl
    · cases h
  | advance_to_next_trace_frame =>
    simp only [Op.apply, ReplaySession.advance_to_next_trace_frame] at h
    split at h
    · cases h; rfl
    · cases h
  | setup_replay_one_trace_frame st => simp only [Op.apply] at h; cases h; rfl
  | try_one_trace_step st => simp only [Op.apply] at h; cases h; rfl
  | clone => simp only [Op.apply] at h; cases h; rfl
  | clone_diversion => simp only [Op.apply] at h; cases h; rfl
  | accessor => simp only [Op.apply] at h; cases h; rfl

theorem run_keeps_debugged_tgid (ops : List Op) :
    ∀ s s1 : ReplaySession, s.tgid_debugged ≠ 0 → run ops s = .ok s1 →
      s1.tgid_debugged = s.tgid_debugged := by
  induction ops with
  | nil =>
    intro s s1 _ h
    simp only [run] at h
    cases h; rfl
  | cons op ops ih =>
    intro s s1 h0 h
    simp only [run] at h
    split at h
    · rename_i s2 hs2
      have e2 := apply_keeps_debugged_tgid op s s2 h0 hs2
      have e1 := ih s2 s1 (by rw [e2]; exact h0) h
      rw [e1, e2]
    · cases h

theorem run_keeps_last_task (ops : List Op) :
    ∀ s s1 : ReplaySession, (∀ op ∈ ops, op.is_set_last_task = false) → run ops s = .ok s1 →
      s1.last_debugged_task = s.last_debugged_task := by
  induction ops with
  | nil =>
    intro s s1 _ h
    simp only [run] at h
    cases h; rfl
  | cons op ops ih =>
    intro s s1 hops h
    simp only [run] at h
    split at h
    · rename_i s2 hs2
      have e2 := apply_keeps_last_task op s s2 (hops op (List.mem_cons_self _ _)) hs2
      have e1 := ih s2 s1 (fun o ho => hops o (List.mem_cons_of_mem _ ho)) h
      rw [e1, e2]
    · cases h

theorem ctor_dir_ok (disk : String → List TraceFrame) (dir : String) (s : ReplaySession)
    (h : ReplaySession.ctor_dir disk dir = .ok s) :
    ∃ f, (disk dir).head? = some f ∧
      s = { emu_fs := some EmuFs.create
            is_diversion := false
            last_debugged_task := 0
            tgid_debugged := 0
            trace_in := { frames := disk dir, pos := 1 }
            trace_frame := f
            current_step := ReplayTraceStep.value_init } := by
  unfold ReplaySession.ctor_dir ReplaySession.ctor_dir_with
    ReplaySession.advance_to_next_trace_frame
    ReplaySession.member_init TraceReader.read_frame TraceReader.of_dir at h
  cases hd : disk dir with
  | nil => simp [hd] at h
  | cons f rest =>
    simp [hd] at h
    exact ⟨f, rfl, h.symm⟩

/-! ## Debugged task-group id -/

/-- C1 (as stated, refuted): on a session fresh from the copy constructor,
`set_debugged_tgid(0)` followed by `set_debugged_tgid(7)` passes the assertion
in both calls and returns a session whose debugged task-group id is 7. -/
theorem C1_counterexample_zero_then_seven :
    set_debugged_tgid_twice (ReplaySession.ctor_copy sample_session) 0 7 =
      .ok { ReplaySession.ctor_copy sample_session with tgid_debugged := 7 } := by
  rfl

/-- C1 (amended): for every session and all ids `a`, `b` with `a` non-zero,
the two calls `set_debugged_tgid(a)`, `set_debugged_tgid(b)` in a row end in a
failed assertion; when the session had no debugged id yet the first call
returns, records `a`, and it is the second call that fails. -/
theorem C1_set_debugged_tgid_twice_fails (s : ReplaySession) (a b : Int) (ha : a ≠ 0) :
    set_debugged_tgid_twice s a b = .error .assertion_failed ∧
    (s.debugged_tgid = 0 →
      ∃ s1, s.set_debugged_tgid a = .ok s1 ∧ s1.debugged_tgid = a ∧
        s1.set_debugged_tgid b = .error .assertion_failed) := by
  constructor
  · unfold set_debugged_tgid_twice ReplaySession.set_debugged_tgid
    by_cases h : 0 = s.tgid_debugged
    · simp only [if_pos h]
      rw [if_neg (fun e => ha e.symm)]
    · simp only [if_neg h]
  · intro h0
    have h0s : 0 = s.tgid_debugged := h0.symm
    refine ⟨{ s with tgid_debugged := a }, ?_, rfl, ?_⟩
    · unfold ReplaySession.set_debugged_tgid
      rw [if_pos h0s]
    · unfold ReplaySession.set_debugged_tgid
      rw [if_neg (fun e => ha e.symm)]

/-- Witness of C1 (amended) on a freshly copied session with `a = 5`, `b = 6`. -/
theorem C1_set_debugged_tgid_twice_fails_witness :
    (5 : Int) ≠ 0 ∧
    set_debugged_tgid_twice (ReplaySession.ctor_copy sample_session) 5 6 =
      .error .assertion_failed ∧
    ((ReplaySession.ctor_copy sample_session).debugged_tgid = 0 →
      ∃ s1, (ReplaySession.ctor_copy sample_session).set_debugged_tgid 5 = .ok s1 ∧
        s1.debugged_tgid = 5 ∧ s1.set_debugged_tgid 6 = .error .assertion_failed) :=
  ⟨by decide,
   C1_set_debugged_tgid_twice_fails (ReplaySession.ctor_copy sample_session) 5 6 (by decide)⟩

/-- C7: once `debugged_tgid()` is non-zero, every sequence of operations on the
session that returns (no failed assertion on the way) leaves `debugged_tgid()`
as it was. -/
theorem C7_debugged_tgid_kept (s s1 : ReplaySession) (ops : List Op)
    (h0 : s.debugged_tgid ≠ 0) (h : run ops s = .ok s1) :
    s1.debugged_tgid = s.debugged_tgid :=
  run_keeps_debugged_tgid ops s s1 h0 h

/-- Witness of C7: the sample session (debugged id 1234) after recording its
last task, moving its cursor through `trace_reader()`, advancing a frame, an
executor call and being cloned. -/
theorem C7_debugged_tgid_kept_witness :
    sample_session.debugged_tgid ≠ 0 ∧
    (∃ s1, run [.set_last_task 77, .trace_reader (fun r => { r with pos := 0 }),
        .advance_to_next_trace_frame, .try_one_trace_step ReplayTraceStep.value_init,
        .clone, .accessor] sample_session = .ok s1 ∧
      s1.debugged_tgid = 1234) :=
  ⟨by decide,
   ⟨_, rfl, C7_debugged_tgid_kept sample_session _
      [.set_last_task 77, .trace_reader (fun r => { r with pos := 0 }),
        .advance_to_next_trace_frame, .try_one_trace_step ReplayTraceStep.value_init,
        .clone, .accessor] (by decide) rfl⟩⟩

/-! ## Last task -/

/-- C8: a session produced by either constructor and then put through any
returning sequence of operations without a `set_last_task` call has a null
`last_task()`; a `set_last_task(t)` that returns makes `last_task()` equal to
`t`, and on such a session `set_last_task(t)` does return. -/
theorem C8_last_task (disk : String → List TraceFrame) (dir : String)
    (s0 s1 : ReplaySession) (ops : List Op) (t : Nat)
    (hctor : (∃ other, s0 = ReplaySession.ctor_copy other) ∨
      ReplaySession.ctor_dir disk dir = .ok s0)
    (hops : ∀ op ∈ ops, op.is_set_last_task = false)
    (hrun : run ops s0 = .ok s1) :
    s1.last_task = 0 ∧
    (∃ s2, s1.set_last_task t = .ok s2 ∧ s2.last_task = t) ∧
    (∀ s s2 : ReplaySession, s.set_last_task t = .ok s2 → s2.last_task = t) := by
  have h0 : s0.last_debugged_task = 0 := by
    rcases hctor with ⟨other, rfl⟩ | hd
    · rfl
    · obtain ⟨f, _, rfl⟩ := ctor_dir_ok disk dir s0 hd
      rfl
  have h1 : s1.last_debugged_task = 0 := by
    rw [run_keeps_last_task ops s0 s1 hops hrun, h0]
  refine ⟨h1, ⟨{ s1 with last_debugged_task := t }, ?_, rfl⟩, ?_⟩
  · unfold ReplaySession.set_last_task
    rw [if_pos h1]
  · intro s s2 h
    unfold ReplaySession.set_last_task at h
    split at h
    · cases h; rfl
    · cases h

/-- Witness of C8: the session constructed from the sample trace directory,
after `set_debugged_tgid(42)`, a frame advance and an accessor call. -/
theorem C8_last_task_witness :
    ∃ s0 s1, ReplaySession.ctor_dir sample_disk "trace_0" = .ok s0 ∧
      run [.set_debugged_tgid 42, .advance_to_next_trace_frame, .accessor] s0 = .ok s1 ∧
      s1.last_task = 0 ∧
      (∃ s2, s1.set_last_task 9 = .ok s2 ∧ s2.last_task = 9) :=
  ⟨_, _, rfl, rfl,
   (C8_last_task sample_disk "trace_0" _ _
      [.set_debugged_tgid 42, .advance_to_next_trace_frame, .accessor] 9
      (Or.inr rfl) (by simp [Op.is_set_last_task]) rfl).1,
   (C8_last_task sample_disk "trace_0" _ _
      [.set_debugged_tgid 42, .advance_to_next_trace_frame, .accessor] 9
      (Or.inr rfl) (by simp [Op.is_set_last_task]) rfl).2.1⟩

/-! ## Copy constructor and cloning -/

/-- C10: whatever the values of the session copied from, the session built by
the copy constructor is no diversion, has no last task and no debugged
task-group id, and `set_debugged_tgid` returns on it for every id. -/
theorem C10_ctor_copy_resets (other : ReplaySession) (tgid : Int) :
    (ReplaySession.ctor_copy other).diversion = false ∧
    (ReplaySession.ctor_copy other).last_task = 0 ∧
    (ReplaySession.ctor_copy other).debugged_tgid = 0 ∧
    (ReplaySession.ctor_copy other).set_debugged_tgid tgid =
      .ok { ReplaySession.ctor_copy other with tgid_debugged := tgid } :=
  ⟨rfl, rfl, rfl, rfl⟩

/-- C3: the session produced by copying a session for a checkpoint (the copy
constructor, and `clone()` built on it) has a trace cursor equal to the cursor
of the original: the same trace, at the same position. -/
theorem C3_trace_cursor_copied (s : ReplaySession) :
    (ReplaySession.ctor_copy s).trace_reader = s.trace_reader ∧
    (ReplaySession.ctor_copy s).trace_reader.pos = s.trace_reader.pos ∧
    (ReplaySession.ctor_copy s).trace_reader.frames = s.trace_reader.frames ∧
    s.clone.trace_reader = s.trace_reader ∧
    s.clone.trace_reader.read_frame = s.trace_reader.read_frame :=
  ⟨rfl, rfl, rfl, rfl, rfl⟩

/-- C2: the session produced by `clone()` owns a current step equal to the
current step of the original: the same action, the same union content, and so
the same flush sub-state (with its four fields and nested desched state) and
the same desched sub-state whenever the step holds one.  The copy is made by
`clone()` itself: the copy constructor it starts from leaves a
value-initialised step. -/
theorem C2_clone_copies_step (s : ReplaySession) :
    (ReplaySession.ctor_copy s).current_step = ReplayTraceStep.value_init ∧
    s.clone.current_step = s.current_step ∧
    s.clone.current_step.action = s.current_step.action ∧
    s.clone.current_step.u = s.current_step.u ∧
    s.clone.current_step.flush = s.current_step.flush ∧
    s.clone.current_step.desched = s.current_step.desched ∧
    (∀ f, s.current_step.flush = some f →
      ∃ g, s.clone.current_step.flush = some g ∧
        g.need_buffer_restore = f.need_buffer_restore ∧
        g.num_rec_bytes_remaining = f.num_rec_bytes_remaining ∧
        g.syscall_record_offset = f.syscall_record_offset ∧
        g.state = f.state ∧ g.desched.type = f.desched.type ∧
        g.desched.state = f.desched.state) ∧
    (∀ d, s.current_step.desched = some d →
      ∃ e, s.clone.current_step.desched = some e ∧ e.type = d.type ∧ e.state = d.state) :=
  ⟨rfl, rfl, rfl, rfl, rfl, rfl,
   fun f hf => ⟨f, hf, rfl, rfl, rfl, rfl, rfl, rfl⟩,
   fun d hd => ⟨d, hd, rfl, rfl⟩⟩

/-- Witness of C2: the clone of the sample session, which is in the middle of
a flush, holds the same flush sub-state. -/
theorem C2_clone_copies_step_witness :
    ∃ g, sample_session.clone.current_step.flush = some g ∧
      g.need_buffer_restore = true ∧ g.num_rec_bytes_remaining = 48 ∧
      g.syscall_record_offset = 16 ∧
      g.state = ReplayFlushBufferedSyscallStep.FLUSH_EXIT ∧
      g.desched.type = ReplayDeschedType.DESCHED_DISARM ∧
      g.desched.state = ReplayDeschedEnterExit.DESCHED_EXIT :=
  (C2_clone_copies_step sample_session).2.2.2.2.2.2.1 _ rfl

/-! ## Active variant of the current step -/

/-- C5 (as stated, refuted): the step owned by a session fresh from the copy
constructor has none of the eight listed variants as its active variant: its
action is `TSTEP_NONE`, the enumerator of value zero. -/
theorem C5_counterexample_copy_has_no_variant :
    (ReplaySession.ctor_copy sample_session).current_step.active_variant_count = 0 ∧
    (ReplaySession.ctor_copy sample_session).current_step.action =
      ReplayTraceStepType.TSTEP_NONE ∧
    (ReplaySession.ctor_copy sample_session).current_step.action.toNat = 0 := by
  decide

/-- C5 (amended): the action of every step is either `TSTEP_NONE`, and then
none of the eight listed variants is active, or exactly one of the eight; the
step of a session just produced by either constructor has action
`TSTEP_NONE`. -/
theorem C5_action_none_or_one_variant (st : ReplayTraceStep) (other : ReplaySession)
    (disk : String → List TraceFrame) (dir : String) :
    ((st.action = .TSTEP_NONE ∧ st.active_variant_count = 0) ∨
      (st.action ≠ .TSTEP_NONE ∧ st.active_variant_count = 1)) ∧
    (ReplaySession.ctor_copy other).current_step.action = .TSTEP_NONE ∧
    (∀ s, ReplaySession.ctor_dir disk dir = .ok s → s.current_step.action = .TSTEP_NONE) := by
  refine ⟨?_, rfl, ?_⟩
  · obtain ⟨action, u⟩ := st
    cases action <;> simp [ReplayTraceStep.active_variant_count, spec_variants]
  · intro s hs
    obtain ⟨f, _, rfl⟩ := ctor_dir_ok disk dir s hs
    rfl

/-- Witness of C5 (amended): the session constructed from the sample trace
directory holds a step with action `TSTEP_NONE`. -/
theorem C5_action_none_or_one_variant_witness :
    ∃ s, ReplaySession.ctor_dir sample_disk "trace_0" = .ok s ∧
      s.current_step.action = ReplayTraceStepType.TSTEP_NONE :=
  ⟨_, rfl,
   (C5_action_none_or_one_variant sample_session.current_step sample_session
      sample_disk "trace_0").2.2 _ rfl⟩

/-! ## Construction from a trace directory -/

/-- C6: the constructor starts from the cursor opened on the directory, at the
start of the trace, with an empty frame, and runs the frame advance once: it
returns exactly when that one advance returns, and then the current frame and
the cursor of the new session are the ones that advance left (only the
emulated filesystem is installed afterwards).  With the advance modelled from
the spec, on a trace that starts with frame `f` the constructor returns a
session whose current frame is `f` and whose cursor stands after one frame. -/
theorem C6_ctor_dir_loads_first_frame (adv : ReplaySession → Except Fatal ReplaySession)
    (disk : String → List TraceFrame) (dir : String) :
    (ReplaySession.member_init (TraceReader.of_dir disk dir)).trace_reader.pos = 0 ∧
    (ReplaySession.member_init (TraceReader.of_dir disk dir)).current_trace_frame =
      TraceFrame.empty ∧
    (∀ s, ReplaySession.ctor_dir_with adv (TraceReader.of_dir disk dir) = .ok s ↔
      ∃ s1, adv (ReplaySession.member_init (TraceReader.of_dir disk dir)) = .ok s1 ∧
        s = { s1 with emu_fs := some EmuFs.create }) ∧
    (∀ s, ReplaySession.ctor_dir_with adv (TraceReader.of_dir disk dir) = .ok s →
      ∃ s1, adv (ReplaySession.member_init (TraceReader.of_dir disk dir)) = .ok s1 ∧
        s.current_trace_frame = s1.current_trace_frame ∧
        s.trace_reader = s1.trace_reader) ∧
    (∀ f rest, disk dir = f :: rest →
      ∃ s, ReplaySession.ctor_dir disk dir = .ok s ∧ s.current_trace_frame = f ∧
        s.trace_reader.pos = 1 ∧ s.trace_reader.frames = f :: rest) := by
  have key : ∀ s, ReplaySession.ctor_dir_with adv (TraceReader.of_dir disk dir) = .ok s ↔
      ∃ s1, adv (ReplaySession.member_init (TraceReader.of_dir disk dir)) = .ok s1 ∧
        s = { s1 with emu_fs := some EmuFs.create } := by
    intro s
    unfold ReplaySession.ctor_dir_with
    cases adv (ReplaySession.member_init (TraceReader.of_dir disk dir)) with
    | error e => simp
    | ok s1 =>
      simp only [Except.ok.injEq]
      constructor
      · intro h
        exact ⟨s1, rfl, h.symm⟩
      · rintro ⟨s2, h2, rfl⟩
        rw [h2]
  refine ⟨rfl, rfl, key, ?_, ?_⟩
  · intro s hs
    obtain ⟨s1, h1, rfl⟩ := (key s).1 hs
    exact ⟨s1, h1, rfl, rfl⟩
  · intro f rest hd
    refine ⟨{ emu_fs := some EmuFs.create
              is_diversion := false
              last_debugged_task := 0
              tgid_debugged := 0
              trace_in := { frames := f :: rest, pos := 1 }
              trace_frame := f
              current_step := ReplayTraceStep.value_init }, ?_, rfl, rfl, rfl⟩
    unfold ReplaySession.ctor_dir ReplaySession.ctor_dir_with
      ReplaySession.advance_to_next_trace_frame
      ReplaySession.member_init TraceReader.read_frame TraceReader.of_dir
    simp [hd]

/-- Witness of C6: constructing from the sample trace directory loads the
first sample frame (task 11) and leaves the cursor at position 1. -/
theorem C6_ctor_dir_loads_first_frame_witness :
    ∃ s, ReplaySession.ctor_dir sample_disk "trace_0" = .ok s ∧
      s.current_trace_frame = { tid := 11, event := 1, ticks := 100 } ∧
      s.trace_reader.pos = 1 ∧ s.trace_reader.frames = sample_frames :=
  (C6_ctor_dir_loads_first_frame ReplaySession.advance_to_next_trace_frame
      sample_disk "trace_0").2.2.2.2
    { tid := 11, event := 1, ticks := 100 } [{ tid := 12, event := 2, ticks := 250 }] rfl

end RR
